import Mathlib

/-!
Verification of the DISBELIEVE platformer simulation core.

A shallow embedding, over exact rational arithmetic, of the simulation core of
the DISBELIEVE tile-based platformer (`game.js`): collision primitives, the
physics stepper, the spike hazard trigger engine, the gravity-zone state
machine, the level parser, and the frame-loop delta-time computation.
Positions, velocities and times are modelled as `ℚ`; JavaScript numbers are
IEEE doubles, but every computation the theorems below touch is exact at the
modelled inputs.  JavaScript `Set` objects are modelled as lists without
duplicates, `null`/absent values as `Option`.
-/

namespace Disbelieve

/-! ## Game constants (game.js top of file) -/

def TILE_SIZE : ℚ := 60

def GRAVITY : ℚ := 2100 * (3/2)

def JUMP_FORCE : ℚ := -840 * (5/4)

def MOVE_SPEED : ℚ := 380

/-! ## Collision primitives -/

/-- An axis-aligned rectangle, as used for platforms, fake blocks,
invisible platforms, the door and collision queries. -/
structure Rect where
  x : ℚ
  y : ℚ
  width : ℚ
  height : ℚ
deriving DecidableEq

/-- The `checkCollision(rect1, rect2)` strict AABB overlap test. -/
def checkCollision (rect1 rect2 : Rect) : Bool :=
  decide (rect1.x < rect2.x + rect2.width) &&
  decide (rect1.x + rect1.width > rect2.x) &&
  decide (rect1.y < rect2.y + rect2.height) &&
  decide (rect1.y + rect1.height > rect2.y)

/-! ## Spikes -/

/-- A spike hazard with its trigger line and move-and-lock animation state. -/
structure Spike where
  x : ℚ
  y : ℚ
  originalX : ℚ
  width : ℚ
  height : ℚ
  moveDistance : ℚ
  triggerX : ℚ
  triggerY : ℚ
  triggerHeight : ℚ
  triggered : Bool
  moved : Bool
  moving : Bool
  moveTimer : ℚ
deriving DecidableEq

/-- The controllable actor.  Purely cosmetic fields of the source record
(particle list, trail, debug counters) are omitted; every field read or
written by the simulation logic is present. -/
structure Player where
  x : ℚ
  y : ℚ
  width : ℚ
  height : ℚ
  vx : ℚ
  vy : ℚ
  onGround : Bool
  hasJumped : Bool
  gravityScale : ℚ
  currentGravityZone : List ℕ
  gravityFlipTimer : ℚ
  gravityFlipCooldown : ℚ
  gravityLocked : Bool
  hasBeenFlipped : Bool
  gravityIndicatorAlpha : ℚ
deriving DecidableEq

def playerRect (p : Player) : Rect := ⟨p.x, p.y, p.width, p.height⟩

def spikeRect (s : Spike) : Rect := ⟨s.x, s.y, s.width, s.height⟩

/-- The vertical-window test of `checkSpikeTriggers`: the player's vertical
span meets `[triggerY, triggerY + triggerHeight]` (closed comparisons). -/
def withinTriggerWindow (p : Player) (s : Spike) : Bool :=
  decide (p.y + p.height ≥ s.triggerY) && decide (p.y ≤ s.triggerY + s.triggerHeight)

/-- The horizontal test of `checkSpikeTriggers`: the player's horizontal span
straddles the trigger line (left edge strictly before it, right edge
at-or-past it). -/
def straddlesTriggerLine (p : Player) (s : Spike) : Bool :=
  decide (p.x < s.triggerX) && decide (p.x + p.width ≥ s.triggerX)

/-- Per-spike body of `checkSpikeTriggers` (game.js lines 1109-1132). -/
def checkSpikeTrigger (p : Player) (s : Spike) : Spike :=
  if !s.triggered && !s.moved then
    if straddlesTriggerLine p s && withinTriggerWindow p s then
      { s with triggered := true, moving := true, moveTimer := 0 }
    else s
  else s

def checkSpikeTriggers (p : Player) (spikes : List Spike) : List Spike :=
  spikes.map (checkSpikeTrigger p)

/-- Per-spike body of the moving-spike loop in `update`
(game.js lines 1040-1054): advance the 5×dt move timer, clamp at 1 and lock
(`moving := false, moved := true`), then interpolate `x` linearly from
`originalX` toward `originalX + moveDistance`. -/
def advanceSpike (dt : ℚ) (s : Spike) : Spike :=
  if s.moving then
    let t0 := s.moveTimer + dt * 5
    let t := if t0 ≥ 1 then 1 else t0
    let moving := if t0 ≥ 1 then false else s.moving
    let moved := if t0 ≥ 1 then true else s.moved
    let targetX := s.originalX + s.moveDistance
    { s with moveTimer := t, moving := moving, moved := moved,
             x := s.originalX + (targetX - s.originalX) * t }
  else s

/-- Per-spike part of `resetPlayer` (game.js lines 757-764). -/
def resetSpike (s : Spike) : Spike :=
  { s with x := s.originalX, triggered := false, moved := false,
           moving := false, moveTimer := 0 }

/-! ## Gravity zones -/

inductive ZoneType
  | flip
  | toggle
  | momentary
deriving DecidableEq

inductive ZoneTrigger
  | enter
  | contact
deriving DecidableEq

/-- A gravity zone as built by `parseLevel` (cosmetic `visual`/`sound`
sub-objects omitted).  `duration = none` models the JavaScript `null`;
`cooldownTimer` is the runtime per-zone cooldown (absent in a fresh zone,
which behaves as `0` in every comparison, so it is modelled as `0`). -/
structure Zone where
  id : ℕ
  x : ℚ
  y : ℚ
  width : ℚ
  height : ℚ
  type : ZoneType
  trigger : ZoneTrigger
  duration : Option ℚ
  cooldown : ℚ
  oneShot : Bool
  hasActivated : Bool
  cooldownTimer : ℚ
deriving DecidableEq

def zoneRect (z : Zone) : Rect := ⟨z.x, z.y, z.width, z.height⟩

/-- The new gravity scale computed by the `switch (zone.type)` in
`activateGravityZone`. -/
def zoneNewScale (z : Zone) (p : Player) : ℚ :=
  match z.type with
  | ZoneType.flip => p.gravityScale * (-1)
  | ZoneType.toggle => p.gravityScale * (-1)
  | ZoneType.momentary => -1

/-- The function `activateGravityZone(zone)` (game.js lines 1170-1212).  The one-shot and
per-zone-cooldown guards return early; otherwise the gravity scale is updated
per zone type, and the side effects (duration timer, cooldown consumption,
`hasActivated`, momentum damping, UI indicator) fire only if the scale
actually changed.  `zone.cooldown || 1.0` is modelled by the zero test, the
only falsy rational. -/
def activateGravityZone (z : Zone) (p : Player) : Zone × Player :=
  if z.oneShot && z.hasActivated then (z, p)
  else if z.cooldownTimer > 0 then (z, p)
  else
    let newScale := zoneNewScale z p
    let p1 : Player := { p with gravityScale := newScale }
    if p.gravityScale ≠ newScale then
      let p2 : Player :=
        match z.duration with
        | some d => if d = 0 then p1 else { p1 with gravityFlipTimer := d }
        | none => p1
      let z1 : Zone := { z with
        cooldownTimer := if z.cooldown = 0 then 1 else z.cooldown,
        hasActivated := true }
      let p3 : Player := { p2 with
        hasBeenFlipped := true,
        gravityIndicatorAlpha := 1,
        vy := p2.vy * (1/2) }
      (z1, p3)
    else (z, p1)

/-- The function `deactivateGravityZone(zone)` (game.js lines 1215-1221), for momentary
zones on exit. -/
def deactivateGravityZone (p : Player) : Player :=
  if p.gravityScale ≠ 1 then { p with gravityScale := 1, gravityIndicatorAlpha := 1 }
  else p

/-- The per-zone cooldown decrement at the top of the `checkGravityZones`
body (game.js lines 1140-1146).  The source's `if (!zone.cooldownTimer)
zone.cooldownTimer = 0` initialisation is the identity in this model. -/
def zoneCooldownTick (dt : ℚ) (z : Zone) : Zone :=
  if z.cooldownTimer > 0 then { z with cooldownTimer := z.cooldownTimer - dt } else z

/-- The enter/exit membership transition of the `checkGravityZones` body
(game.js lines 1148-1160). -/
def zoneEnterExitStep (z : Zone) (p : Player) (isInZone wasInZone : Bool) : Zone × Player :=
  if isInZone && !wasInZone then
    let p : Player := { p with currentGravityZone := z.id :: p.currentGravityZone }
    if z.trigger = ZoneTrigger.enter ∧ z.cooldownTimer ≤ 0 ∧ ¬ p.gravityLocked then
      activateGravityZone z p
    else (z, p)
  else if !isInZone && wasInZone then
    let p : Player := { p with
      currentGravityZone := p.currentGravityZone.filter (fun i => i ≠ z.id) }
    if z.type = ZoneType.momentary then (z, deactivateGravityZone p) else (z, p)
  else (z, p)

/-- The continuous contact trigger at the end of the `checkGravityZones`
body (game.js lines 1162-1165), reading the zone state already updated by
the enter/exit step. -/
def zoneContactStep (isInZone : Bool) (zp : Zone × Player) : Zone × Player :=
  if isInZone ∧ zp.1.trigger = ZoneTrigger.contact ∧ zp.1.cooldownTimer ≤ 0 ∧
      ¬ zp.2.gravityLocked then
    activateGravityZone zp.1 zp.2
  else zp

/-- Per-zone body of `checkGravityZones` (game.js lines 1135-1167): decrement
the per-zone cooldown, handle the enter/exit membership transition, then the
continuous contact trigger. -/
def checkGravityZone (dt : ℚ) (z : Zone) (p : Player) : Zone × Player :=
  let isInZone := checkCollision (playerRect p) (zoneRect z)
  let wasInZone := decide (z.id ∈ p.currentGravityZone)
  zoneContactStep isInZone (zoneEnterExitStep (zoneCooldownTick dt z) p isInZone wasInZone)

/-- The function `checkGravityZones(deltaTime)`: fold the per-zone body over the zone list,
threading the player. -/
def checkGravityZones (dt : ℚ) (p : Player) (zones : List Zone) : List Zone × Player :=
  zones.foldl
    (fun acc z =>
      let out := checkGravityZone dt z acc.2
      (acc.1 ++ [out.1], out.2))
    ([], p)

/-! ## Physics stepper and the per-frame update -/

/-- The sampled input intents for one frame. -/
structure Keys where
  left : Bool
  right : Bool
  space : Bool
deriving DecidableEq

/-- The mutable simulation state touched by one playing-state frame. -/
structure GameState where
  player : Player
  platforms : List Rect
  invisiblePlatforms : List Rect
  spikes : List Spike
  gravityZones : List Zone
  door : Option Rect
  canvasWidth : ℚ
  canvasHeight : ℚ
  isDead : Bool
  levelComplete : Bool
deriving DecidableEq

/-- Gravity-system timer updates at the top of `update`
(game.js lines 869-889): temporary-flip reversion, UI cooldown, indicator
fade.  The particle update is cosmetic and omitted. -/
def gravityTimersStep (dt : ℚ) (p : Player) : Player :=
  let p :=
    if p.gravityFlipTimer > 0 then
      let t := p.gravityFlipTimer - dt
      if t ≤ 0 then { p with gravityFlipTimer := t, gravityScale := 1, gravityIndicatorAlpha := 1 }
      else { p with gravityFlipTimer := t }
    else p
  let p :=
    if p.gravityFlipCooldown > 0 then { p with gravityFlipCooldown := p.gravityFlipCooldown - dt }
    else p
  if p.gravityIndicatorAlpha > 0 then
    { p with gravityIndicatorAlpha := p.gravityIndicatorAlpha - dt * 2 }
  else p

/-- Horizontal input and jumping (game.js lines 900-924). -/
def inputStep (keys : Keys) (p : Player) : Player :=
  let p :=
    if keys.left then { p with vx := -MOVE_SPEED }
    else if keys.right then { p with vx := MOVE_SPEED }
    else { p with vx := 0 }
  let p :=
    if keys.space && p.onGround && !p.hasJumped then
      { p with vy := JUMP_FORCE * p.gravityScale, onGround := false, hasJumped := true }
    else p
  if !keys.space then { p with hasJumped := false } else p

/-- Gravity application, horizontal integration and the world-bounds clamp
(game.js lines 926-937). -/
def integrateHorizontal (dt canvasWidth : ℚ) (p : Player) : Player :=
  let p := { p with vy := p.vy + GRAVITY * p.gravityScale * dt }
  let p := { p with x := p.x + p.vx * dt }
  let p := if p.x < 0 then { p with x := 0 } else p
  if p.x + p.width > canvasWidth then { p with x := canvasWidth - p.width } else p

/-- One horizontal resolution against one solid (game.js lines 940-949):
push the actor to the platform's near edge opposite its velocity sign. -/
def resolveHorizOne (p : Player) (platform : Rect) : Player :=
  if checkCollision (playerRect p) platform then
    if p.vx > 0 then { p with x := platform.x - p.width }
    else if p.vx < 0 then { p with x := platform.x + platform.width }
    else p
  else p

/-- The horizontal resolution phase (game.js lines 939-963): platforms first,
then invisible platforms, in list order. -/
def horizontalResolve (platforms invisiblePlatforms : List Rect) (p : Player) : Player :=
  invisiblePlatforms.foldl resolveHorizOne (platforms.foldl resolveHorizOne p)

/-- One vertical resolution against one solid (game.js lines 971-999): the
landing/ceiling roles depend on the sign of `gravityScale`. -/
def resolveVertOne (p : Player) (platform : Rect) : Player :=
  if checkCollision (playerRect p) platform then
    if p.gravityScale > 0 then
      if p.vy > 0 then { p with y := platform.y - p.height, vy := 0, onGround := true }
      else if p.vy < 0 then { p with y := platform.y + platform.height, vy := 0 }
      else p
    else
      if p.vy < 0 then { p with y := platform.y + platform.height, vy := 0, onGround := true }
      else if p.vy > 0 then { p with y := platform.y - p.height, vy := 0 }
      else p
  else p

/-- The vertical resolution phase (game.js lines 968-1030): `onGround` is
unconditionally reset to `false`, then every solid is resolved, platforms
first, then invisible platforms. -/
def verticalResolve (platforms invisiblePlatforms : List Rect) (p : Player) : Player :=
  let p : Player := { p with onGround := false }
  invisiblePlatforms.foldl resolveVertOne (platforms.foldl resolveVertOne p)

/-- One playing-state frame of `update(deltaTime)` (game.js lines 869-1087),
in source order: gravity timers, input, gravity and horizontal integration,
horizontal resolution, vertical integration, vertical resolution, spike
triggers, gravity zones, spike animation, spike/door/fall outcomes.  Trail
history is cosmetic and omitted. -/
def update (dt : ℚ) (keys : Keys) (s : GameState) : GameState :=
  let p := gravityTimersStep dt s.player
  let p := inputStep keys p
  let p := integrateHorizontal dt s.canvasWidth p
  let p := horizontalResolve s.platforms s.invisiblePlatforms p
  let p : Player := { p with y := p.y + p.vy * dt }
  let p := verticalResolve s.platforms s.invisiblePlatforms p
  let spikes := checkSpikeTriggers p s.spikes
  let zp := checkGravityZones dt p s.gravityZones
  let p := zp.2
  let spikes := spikes.map (advanceSpike dt)
  let dead := s.isDead || spikes.any (fun sp => checkCollision (playerRect p) (spikeRect sp))
  let complete := s.levelComplete ||
    (match s.door with
     | some d => checkCollision (playerRect p) d
     | none => false)
  let dead := dead || decide (p.y > s.canvasHeight + 100)
  { s with player := p, spikes := spikes, gravityZones := zp.1,
           isDead := dead, levelComplete := complete }

/-- Delta-time computation of `gameLoop` (game.js lines 2801-2816): the raw
wall-clock difference in milliseconds, divided by 1000.  No cap and no
fallback is applied before it is passed to `update`. -/
def gameLoopDeltaTime (currentTime lastTime : ℚ) : ℚ :=
  (currentTime - lastTime) / 1000

/-! ## Level parser -/

/-- A per-zone configuration override object: `none` fields are absent (or
falsy) in the source object and fall back to the parser's defaults. -/
structure ZoneConfig where
  type : Option ZoneType
  trigger : Option ZoneTrigger
  duration : Option ℚ
  cooldown : Option ℚ
  oneShot : Option Bool
deriving DecidableEq

def defaultZoneConfig : ZoneConfig := ⟨none, none, none, none, none⟩

/-- A level definition: the character grid plus the optional override arrays
(`spikeTriggers`, `spikeTriggerLengths`, per-level `gravityZones`).  An
absent `spikeTriggers`/`spikeTriggerLengths` array behaves as `[]`; `none`
entries of `spikeTriggerLengths` are the JavaScript `null`. -/
structure LevelDef where
  map : List (List Char)
  spikeTriggers : List ℚ
  spikeTriggerLengths : List (Option ℚ)
  gravityZones : Option (List ZoneConfig)
deriving DecidableEq

/-- The chapter-scoped gravity-zone override list. -/
structure ChapterDef where
  gravityZones : Option (List ZoneConfig)
deriving DecidableEq

/-- Trigger offset for spike `i` (game.js lines 562-564): the custom entry if
present, else the default `-0.5`. -/
def parseTriggerOffset (customTriggers : List ℚ) (spikeIndex : ℕ) : ℚ :=
  (customTriggers.get? spikeIndex).getD (-(1/2))

/-- Trigger length for spike `i` (game.js lines 569-571): the custom entry if
present and non-null, else `null` (meaning full height). -/
def parseTriggerLength (customTriggerLengths : List (Option ℚ)) (spikeIndex : ℕ) : Option ℚ :=
  match customTriggerLengths.get? spikeIndex with
  | some (some v) => some v
  | _ => none

/-- Trigger vertical bounds `(triggerY, triggerHeight)` (game.js lines
574-592): full canvas height when the length is null or `0`, otherwise a
bounded span above (positive) or below (negative) the spike's visual top. -/
def parseTriggerBounds (triggerLength : Option ℚ) (y canvasHeight : ℚ) : ℚ × ℚ :=
  match triggerLength with
  | none => (0, canvasHeight)
  | some len =>
    if len = 0 then (0, canvasHeight)
    else
      let spikeTopY := y + 20
      if len > 0 then (spikeTopY - len, len)
      else (spikeTopY, |len|)

/-- The spike record pushed by `parseLevel` (game.js lines 594-610). -/
def mkSpike (x y moveDistance triggerOffset : ℚ) (bounds : ℚ × ℚ) : Spike :=
  { x := x, y := y + 20, originalX := x, width := TILE_SIZE, height := TILE_SIZE - 20,
    moveDistance := moveDistance,
    triggerX := x - triggerOffset * TILE_SIZE,
    triggerY := bounds.1, triggerHeight := bounds.2,
    triggered := false, moved := false, moving := false, moveTimer := 0 }

/-- Accumulator of the glyph scan in `parseLevel`. -/
structure ParseAcc where
  platforms : List Rect
  fakeBlocks : List Rect
  invisiblePlatforms : List Rect
  spikes : List Spike
  door : Option Rect
  spawnPoint : Option (ℚ × ℚ)
  spikeIndex : ℕ
deriving DecidableEq

def initParseAcc : ParseAcc := ⟨[], [], [], [], none, none, 0⟩

/-- One cell of the row-major glyph scan (game.js lines 538-620). -/
def parseCell (canvasHeight : ℚ) (customTriggers : List ℚ)
    (customTriggerLengths : List (Option ℚ)) (acc : ParseAcc)
    (row col : ℕ) (char : Char) : ParseAcc :=
  let x : ℚ := (col : ℚ) * TILE_SIZE
  let y : ℚ := (row : ℚ) * TILE_SIZE
  if char = '#' then
    { acc with platforms := acc.platforms ++ [⟨x, y, TILE_SIZE, TILE_SIZE⟩] }
  else if char = 'F' then
    { acc with fakeBlocks := acc.fakeBlocks ++ [⟨x, y, TILE_SIZE, TILE_SIZE⟩] }
  else if char = 'I' then
    { acc with invisiblePlatforms := acc.invisiblePlatforms ++ [⟨x, y, TILE_SIZE, TILE_SIZE⟩] }
  else if char.isDigit || char = '^' then
    let moveDistance : ℚ :=
      if char = '^' then TILE_SIZE * 2
      else TILE_SIZE * ((char.toNat - 48 : ℕ) : ℚ)
    let triggerOffset := parseTriggerOffset customTriggers acc.spikeIndex
    let triggerLength := parseTriggerLength customTriggerLengths acc.spikeIndex
    let bounds := parseTriggerBounds triggerLength y canvasHeight
    { acc with spikes := acc.spikes ++ [mkSpike x y moveDistance triggerOffset bounds],
               spikeIndex := acc.spikeIndex + 1 }
  else if char = 'D' then
    { acc with door := some ⟨x, y, TILE_SIZE, TILE_SIZE⟩ }
  else if char = 'S' then
    { acc with spawnPoint := some (x + 15, y) }
  else acc

def isZoneMarker (c : Char) : Bool := c = 'G' || c = 'g'

/-- The grid cell at (row, col), `none` when out of bounds. -/
def cellAt (map : List (List Char)) (row col : ℤ) : Option Char :=
  if row < 0 ∨ col < 0 then none
  else (map.get? row.toNat).bind (fun r => r.get? col.toNat)

/-- The `G`/`g` markers of the grid in row-major scan order
(game.js lines 629-637). -/
def zoneMarkers (map : List (List Char)) : List (ℤ × ℤ) :=
  map.enum.foldl
    (fun acc rowPair =>
      rowPair.2.enum.foldl
        (fun acc colPair =>
          if isZoneMarker colPair.2 then acc ++ [((rowPair.1 : ℤ), (colPair.1 : ℤ))]
          else acc)
        acc)
    []

/-- Bounding box of one connected marker region. -/
structure ZoneBox where
  minRow : ℤ
  maxRow : ℤ
  minCol : ℤ
  maxCol : ℤ
deriving DecidableEq

/-- The stack-based flood fill of `parseLevel` (game.js lines 648-675):
pop a position, skip it if processed, otherwise grow the bounding box and
push unprocessed marker neighbours in the fixed direction order.  `fuel`
bounds the iteration count; the callers pass more fuel than the loop can
consume, so the cut-off is never reached. -/
def floodFill (map : List (List Char)) :
    ℕ → List (ℤ × ℤ) → List (ℤ × ℤ) → ZoneBox → ZoneBox × List (ℤ × ℤ)
  | 0, _, processed, box => (box, processed)
  | _ + 1, [], processed, box => (box, processed)
  | fuel + 1, cur :: rest, processed, box =>
    if cur ∈ processed then floodFill map fuel rest processed box
    else
      let processed := cur :: processed
      let box : ZoneBox :=
        { minRow := min box.minRow cur.1, maxRow := max box.maxRow cur.1,
          minCol := min box.minCol cur.2, maxCol := max box.maxCol cur.2 }
      let stack := [((0 : ℤ), (1 : ℤ)), (0, -1), (1, 0), (-1, 0)].foldl
        (fun st d =>
          let nr := cur.1 + d.1
          let nc := cur.2 + d.2
          match cellAt map nr nc with
          | some ch =>
            if isZoneMarker ch && !((nr, nc) ∈ processed) then (nr, nc) :: st else st
          | none => st)
        rest
      floodFill map fuel stack processed box

/-- Connected-component grouping of zone markers (game.js lines 640-678),
in marker scan order, sharing one processed set across components. -/
def detectZones (map : List (List Char)) : List ZoneBox :=
  let markers := zoneMarkers map
  (markers.foldl
    (fun acc m =>
      if m ∈ acc.2 then acc
      else
        let out := floodFill map (4 * markers.length + 1) [m] acc.2
          ⟨m.1, m.1, m.2, m.2⟩
        (acc.1 ++ [out.1], out.2))
    ([], [])).1

/-- The zone record built from a detected region and its config
(game.js lines 681-723): chapter config first, then level config, then
defaults. -/
def mkZone (chapterZones levelZones : Option (List ZoneConfig))
    (index : ℕ) (box : ZoneBox) : Zone :=
  let cfg :=
    (((chapterZones.bind (fun l => l.get? index)).orElse
      (fun _ => levelZones.bind (fun l => l.get? index))).getD defaultZoneConfig)
  { id := index,
    x := (box.minCol : ℚ) * TILE_SIZE,
    y := (box.minRow : ℚ) * TILE_SIZE,
    width := ((box.maxCol - box.minCol + 1 : ℤ) : ℚ) * TILE_SIZE,
    height := ((box.maxRow - box.minRow + 1 : ℤ) : ℚ) * TILE_SIZE,
    type := cfg.type.getD ZoneType.flip,
    trigger := cfg.trigger.getD ZoneTrigger.enter,
    duration := cfg.duration,
    cooldown := cfg.cooldown.getD (1/2),
    oneShot := cfg.oneShot.getD false,
    hasActivated := false,
    cooldownTimer := 0 }

/-- The output of one `parseLevel` run. -/
structure ParsedLevel where
  platforms : List Rect
  fakeBlocks : List Rect
  invisiblePlatforms : List Rect
  spikes : List Spike
  door : Option Rect
  spawnPoint : Option (ℚ × ℚ)
  gravityZones : List Zone
deriving DecidableEq

/-- The function `parseLevel()` (game.js lines 523-725) as a pure function of the static
level definition: the row-major glyph scan followed by gravity-zone
detection (`ENABLE_GRAVITY_ZONES` is `true` in the source). -/
def parseLevel (canvasHeight : ℚ) (chapter : ChapterDef) (lvl : LevelDef) : ParsedLevel :=
  let acc := lvl.map.enum.foldl
    (fun acc rowPair =>
      rowPair.2.enum.foldl
        (fun acc colPair =>
          parseCell canvasHeight lvl.spikeTriggers lvl.spikeTriggerLengths acc
            rowPair.1 colPair.1 colPair.2)
        acc)
    initParseAcc
  let zones := (detectZones lvl.map).enum.map
    (fun pr => mkZone chapter.gravityZones lvl.gravityZones pr.1 pr.2)
  { platforms := acc.platforms, fakeBlocks := acc.fakeBlocks,
    invisiblePlatforms := acc.invisiblePlatforms, spikes := acc.spikes,
    door := acc.door, spawnPoint := acc.spawnPoint, gravityZones := zones }

/-- The geometry/hazard portion of the global mutable state that
`parseLevel()` writes, together with the static definitions it reads. -/
structure SimGeometry where
  levelDef : LevelDef
  chapterDef : ChapterDef
  canvasHeight : ℚ
  platforms : List Rect
  fakeBlocks : List Rect
  invisiblePlatforms : List Rect
  spikes : List Spike
  door : Option Rect
  spawnPoint : Option (ℚ × ℚ)
  gravityZones : List Zone
deriving DecidableEq

/-- The function `parseLevel()` as a state transformer: it clears and rebuilds every
geometry/hazard list from the static level definition and never writes the
definition itself. -/
def runParseLevel (s : SimGeometry) : SimGeometry :=
  let out := parseLevel s.canvasHeight s.chapterDef s.levelDef
  { s with platforms := out.platforms, fakeBlocks := out.fakeBlocks,
           invisiblePlatforms := out.invisiblePlatforms, spikes := out.spikes,
           door := out.door, spawnPoint := out.spawnPoint,
           gravityZones := out.gravityZones }

/-! ## Concrete instances used by witnesses and counterexamples -/

/-- A concrete player with the source's default extents and a fresh gravity
state, reused as a base for concrete scenarios. -/
def basePlayer : Player :=
  { x := 0, y := 0, width := 45, height := 45, vx := 0, vy := 0,
    onGround := false, hasJumped := false, gravityScale := 1,
    currentGravityZone := [], gravityFlipTimer := 0, gravityFlipCooldown := 0,
    gravityLocked := false, hasBeenFlipped := false, gravityIndicatorAlpha := 0 }

/-- The trigger condition in the words of the spec (for comparison with the
source's straddle test): the actor's leading edge — the right edge when
approaching rightward, the left edge when approaching leftward — has this
frame crossed from strictly before the line to at-or-past it. -/
def specLeadingEdgeCrossed (prev curr : Player) (lineX : ℚ) : Prop :=
  (prev.x + prev.width < lineX ∧ curr.x + curr.width ≥ lineX) ∨
  (prev.x > lineX ∧ curr.x ≤ lineX)

instance (prev curr : Player) (lineX : ℚ) :
    Decidable (specLeadingEdgeCrossed prev curr lineX) := by
  unfold specLeadingEdgeCrossed
  infer_instance

/-- An untriggered spike whose trigger line is at x = 100 with vertical
window [0, 200]. -/
def c1Spike : Spike :=
  { x := 120, y := 200, originalX := 120, width := 60, height := 40,
    moveDistance := 60, triggerX := 100, triggerY := 0, triggerHeight := 200,
    triggered := false, moved := false, moving := false, moveTimer := 0 }

/-- Previous frame: straddling the line but just below the vertical window. -/
def c1PrevPlayer : Player := { basePlayer with x := 80, y := 210 }

/-- Current frame: same x (no horizontal motion at all), moved up into the
vertical window. -/
def c1CurrPlayer : Player := { basePlayer with x := 80, y := 195 }

/-- A concrete already-triggered spike. -/
def c1TriggeredSpike : Spike := { c1Spike with triggered := true }

/-- A concrete spike mid-trigger: `moving = true`, timer at 0. -/
def c2Spike : Spike :=
  { x := 120, y := 200, originalX := 120, width := 60, height := 40,
    moveDistance := 120, triggerX := 100, triggerY := 0, triggerHeight := 600,
    triggered := true, moved := false, moving := true, moveTimer := 0 }

/-- A flip zone with a pending duration, fresh and off cooldown. -/
def c3Zone : Zone :=
  { id := 0, x := 0, y := 0, width := 60, height := 60, type := ZoneType.flip,
    trigger := ZoneTrigger.enter, duration := some 2, cooldown := 0,
    oneShot := false, hasActivated := false, cooldownTimer := 0 }

/-- A one-shot zone that has already activated. -/
def c5Zone : Zone :=
  { id := 1, x := 120, y := 0, width := 60, height := 120, type := ZoneType.toggle,
    trigger := ZoneTrigger.contact, duration := none, cooldown := 1/2,
    oneShot := true, hasActivated := true, cooldownTimer := 0 }

/-- A zone configured with cooldown 0. -/
def c10Zone : Zone :=
  { id := 2, x := 0, y := 0, width := 60, height := 60, type := ZoneType.flip,
    trigger := ZoneTrigger.enter, duration := none, cooldown := 0,
    oneShot := false, hasActivated := false, cooldownTimer := 0 }

/-- An actor at rest flagged as grounded while embedded in a platform. -/
def c9Player : Player := { basePlayer with x := 10, y := 280, vy := 0, onGround := true }

/-- The platform the C9 actor is embedded in. -/
def c9Platform : Rect := ⟨0, 300, 60, 60⟩

/-- The concrete C4 platform. -/
def c4Platform : Rect := ⟨0, 300, 60, 60⟩

/-- A concrete actor resting exactly on top of the C4 platform. -/
def c4Player : Player := { basePlayer with x := 10, y := 255, vy := 0, onGround := true }

/-- No input intents held. -/
def noKeys : Keys := ⟨false, false, false⟩

/-- The concrete C4 game state: one platform, the actor at rest on it. -/
def c4State : GameState :=
  { player := c4Player, platforms := [c4Platform], invisiblePlatforms := [],
    spikes := [], gravityZones := [], door := none,
    canvasWidth := 900, canvasHeight := 600, isDead := false, levelComplete := false }

/-! ## Helper lemmas -/

theorem foldl_fixed {α β : Type} (f : α → β → α) (a : α) (h : ∀ b, f a b = a) :
    ∀ l : List β, l.foldl f a = a
  | [] => rfl
  | b :: l => by rw [List.foldl_cons, h b, foldl_fixed f a h l]

theorem advanceSpike_not_moving (dt : ℚ) (s : Spike) (h : s.moving = false) :
    advanceSpike dt s = s := by
  unfold advanceSpike
  rw [h]
  rfl

theorem advanceSpike_moving (dt : ℚ) (s : Spike) (h : s.moving = true) :
    advanceSpike dt s =
      if 1 ≤ s.moveTimer + dt * 5 then
        { s with moveTimer := 1, moving := false, moved := true,
                 x := s.originalX + s.moveDistance }
      else
        { s with moveTimer := s.moveTimer + dt * 5,
                 x := s.originalX + s.moveDistance * (s.moveTimer + dt * 5) } := by
  unfold advanceSpike
  rw [h]
  by_cases hc : 1 ≤ s.moveTimer + dt * 5
  · simp only [ge_iff_le, hc, if_true, ite_true, Spike.mk.injEq, and_true, true_and]
    all_goals ring
  · simp only [ge_iff_le, hc, if_true, ite_true, if_false, ite_false, Spike.mk.injEq,
      and_true, true_and]
    all_goals ring

theorem advanceSpike_iterate_completes (dt : ℚ) :
    ∀ (n : ℕ) (s : Spike), s.moving = true → 1 ≤ s.moveTimer + dt * 5 * ((n : ℚ) + 1) →
      (advanceSpike dt)^[n + 1] s =
        { s with moveTimer := 1, moving := false, moved := true,
                 x := s.originalX + s.moveDistance } := by
  intro n
  induction n with
  | zero =>
    intro s hm h1
    rw [Function.iterate_one, advanceSpike_moving dt s hm,
      if_pos (by push_cast at h1; linarith)]
  | succ k ih =>
    intro s hm h1
    rw [Function.iterate_succ_apply]
    by_cases hc : 1 ≤ s.moveTimer + dt * 5
    · rw [advanceSpike_moving dt s hm, if_pos hc]
      exact Function.iterate_fixed (advanceSpike_not_moving dt _ rfl) (k + 1)
    · rw [advanceSpike_moving dt s hm, if_neg hc]
      have hstep := ih
        { s with moveTimer := s.moveTimer + dt * 5,
                 x := s.originalX + s.moveDistance * (s.moveTimer + dt * 5) }
        hm
        (by
          show (1 : ℚ) ≤ s.moveTimer + dt * 5 + dt * 5 * ((k : ℚ) + 1)
          push_cast at h1
          ring_nf at h1 ⊢
          linarith)
      rw [hstep]

theorem checkSpikeTrigger_latched (p : Player) (s : Spike)
    (h : s.triggered = true ∨ s.moved = true) :
    checkSpikeTrigger p s = s := by
  unfold checkSpikeTrigger
  rcases h with h | h <;> rw [h] <;> simp

/-! ## C1: spike trigger semantics -/

/-- C1 (counterexample): the code's trigger test is a per-frame straddle
check, not edge-crossing detection.  A player whose horizontal position is
identical in both frames (so no leading edge crossed the trigger line this
frame) and who merely moves vertically into the trigger window still
triggers the spike, refuting the claim that a spike becomes triggered
exactly when the leading edge has this frame crossed from before to
at-or-past the line. -/
theorem c1_counterexample :
    checkSpikeTrigger c1PrevPlayer c1Spike = c1Spike ∧
    c1Spike.triggered = false ∧
    (checkSpikeTrigger c1CurrPlayer c1Spike).triggered = true ∧
    ¬ specLeadingEdgeCrossed c1PrevPlayer c1CurrPlayer c1Spike.triggerX := by
  refine ⟨?_, rfl, ?_, ?_⟩
  · norm_num [checkSpikeTrigger, straddlesTriggerLine, withinTriggerWindow,
      c1PrevPlayer, c1Spike, basePlayer]
  · norm_num [checkSpikeTrigger, straddlesTriggerLine, withinTriggerWindow,
      c1CurrPlayer, c1Spike, basePlayer]
  · norm_num [specLeadingEdgeCrossed, c1PrevPlayer, c1CurrPlayer, c1Spike, basePlayer]

/-- C1 (amended): a spike becomes triggered exactly when it is not already
triggered or moved, the actor's horizontal span currently straddles the
trigger line (left edge strictly before it, right edge at-or-past it), and
the actor's vertical span intersects [triggerY, triggerY+triggerHeight].
This is a per-frame straddle test; the `triggered`/`moved` latch — not
crossing detection — makes it fire at most once per level instance, and
straddling the line outside the vertical window never triggers it. -/
theorem c1_spike_trigger_straddle (p : Player) (s : Spike) :
    ((checkSpikeTrigger p s).triggered = true ↔
      (s.triggered = true ∨
        (s.moved = false ∧ straddlesTriggerLine p s = true ∧
          withinTriggerWindow p s = true))) ∧
    (s.triggered = true ∨ s.moved = true → checkSpikeTrigger p s = s) ∧
    (withinTriggerWindow p s = false → checkSpikeTrigger p s = s) := by
  refine ⟨?_, checkSpikeTrigger_latched p s, ?_⟩
  · unfold checkSpikeTrigger
    cases hT : s.triggered <;> cases hM : s.moved <;>
      cases hS : straddlesTriggerLine p s <;> cases hW : withinTriggerWindow p s <;>
      simp_all
  · intro hW
    unfold checkSpikeTrigger
    rw [hW]
    simp

/-- Witness for C1: the already-triggered spike is left unchanged. -/
theorem c1_witness :
    checkSpikeTrigger c1CurrPlayer c1TriggeredSpike = c1TriggeredSpike :=
  (c1_spike_trigger_straddle c1CurrPlayer c1TriggeredSpike).2.1 (Or.inl rfl)

/-! ## C2: spike move-and-lock animation -/

/-- C2: once triggered (`moving = true`), a spike's `moveTimer` increases at
5×dt per frame and its `x` is interpolated linearly from `originalX` toward
`originalX + moveDistance`; when the accumulated dt reaches 0.2 s
(`moveTimer + dt·5 ≥ 1`) the spike locks at the target with `moving = false,
moved = true`; a moved spike is frozen by both the animation step and the
trigger check for the rest of the level instance; and the respawn reset
restores `x = originalX` and clears all three flags. -/
theorem c2_spike_animation (dt : ℚ) (n : ℕ) (p : Player) (s : Spike) :
    (s.moving = true → advanceSpike dt s =
      if 1 ≤ s.moveTimer + dt * 5 then
        { s with moveTimer := 1, moving := false, moved := true,
                 x := s.originalX + s.moveDistance }
      else
        { s with moveTimer := s.moveTimer + dt * 5,
                 x := s.originalX + s.moveDistance * (s.moveTimer + dt * 5) }) ∧
    (s.moving = false → advanceSpike dt s = s) ∧
    (s.moved = true → checkSpikeTrigger p s = s ∧
      (s.moving = false → advanceSpike dt s = s)) ∧
    (s.moving = true → 1 ≤ s.moveTimer + dt * 5 * ((n : ℚ) + 1) →
      (advanceSpike dt)^[n + 1] s =
        { s with moveTimer := 1, moving := false, moved := true,
                 x := s.originalX + s.moveDistance }) ∧
    resetSpike s = { s with x := s.originalX, triggered := false, moved := false,
                            moving := false, moveTimer := 0 } :=
  ⟨advanceSpike_moving dt s,
   advanceSpike_not_moving dt s,
   fun hm => ⟨checkSpikeTrigger_latched p s (Or.inr hm), advanceSpike_not_moving dt s⟩,
   advanceSpike_iterate_completes dt n s,
   rfl⟩

/-- Witness for C2: two frames of dt = 0.1 s complete the 0.2 s animation
and lock the spike at `originalX + moveDistance`. -/
theorem c2_witness :
    (advanceSpike (1/10))^[2] c2Spike =
      { c2Spike with moveTimer := 1, moving := false, moved := true,
                     x := c2Spike.originalX + c2Spike.moveDistance } :=
  (c2_spike_animation (1/10) 1 basePlayer c2Spike).2.2.2.1 rfl (by norm_num [c2Spike])

/-! ## Gravity zone activation lemmas -/

theorem activate_oneShot_guard (z : Zone) (p : Player)
    (h1 : z.oneShot = true) (h2 : z.hasActivated = true) :
    activateGravityZone z p = (z, p) := by
  unfold activateGravityZone
  rw [h1, h2]
  rfl

theorem activate_changed (z : Zone) (p : Player)
    (h1 : ¬(z.oneShot = true ∧ z.hasActivated = true)) (h2 : ¬ z.cooldownTimer > 0)
    (h3 : p.gravityScale ≠ zoneNewScale z p) :
    activateGravityZone z p =
      ({ z with cooldownTimer := if z.cooldown = 0 then 1 else z.cooldown,
                hasActivated := true },
       { p with gravityScale := zoneNewScale z p,
                gravityFlipTimer :=
                  match z.duration with
                  | some d => if d = 0 then p.gravityFlipTimer else d
                  | none => p.gravityFlipTimer,
                hasBeenFlipped := true, gravityIndicatorAlpha := 1,
                vy := p.vy * (1/2) }) := by
  have hb : (z.oneShot && z.hasActivated) = false := by
    cases ho : z.oneShot <;> cases ha : z.hasActivated <;> simp_all
  cases hd : z.duration with
  | none => simp [activateGravityZone, hb, h2, h3, hd]
  | some d =>
    by_cases hd0 : d = 0
    · simp [activateGravityZone, hb, h2, h3, hd, hd0]
    · simp [activateGravityZone, hb, h2, h3, hd, hd0]

theorem activate_unchanged (z : Zone) (p : Player)
    (h1 : ¬(z.oneShot = true ∧ z.hasActivated = true)) (h2 : ¬ z.cooldownTimer > 0)
    (h3 : p.gravityScale = zoneNewScale z p) :
    activateGravityZone z p = (z, p) := by
  have hb : (z.oneShot && z.hasActivated) = false := by
    cases ho : z.oneShot <;> cases ha : z.hasActivated <;> simp_all
  simp [activateGravityZone, hb, h2, ← h3]

theorem activate_scale (z : Zone) (p : Player)
    (h1 : ¬(z.oneShot = true ∧ z.hasActivated = true)) (h2 : ¬ z.cooldownTimer > 0) :
    (activateGravityZone z p).2.gravityScale = zoneNewScale z p := by
  by_cases h3 : p.gravityScale = zoneNewScale z p
  · rw [activate_unchanged z p h1 h2 h3]
    exact h3
  · rw [activate_changed z p h1 h2 h3]

theorem activate_cooldown_guard (z : Zone) (p : Player)
    (h1 : (z.oneShot && z.hasActivated) = false) (h2 : z.cooldownTimer > 0) :
    activateGravityZone z p = (z, p) := by
  unfold activateGravityZone
  rw [h1]
  simp [h2]

theorem activate_preserves_hasActivated (z : Zone) (p : Player)
    (h : z.hasActivated = true) :
    (activateGravityZone z p).1.hasActivated = true := by
  by_cases hg : (z.oneShot && z.hasActivated) = true
  · rw [Bool.and_eq_true] at hg
    rw [activate_oneShot_guard z p hg.1 hg.2]
    exact h
  · have hg' : ¬(z.oneShot = true ∧ z.hasActivated = true) := by
      rw [← Bool.and_eq_true]
      exact hg
    by_cases hc : z.cooldownTimer > 0
    · rw [activate_cooldown_guard z p (Bool.not_eq_true _ ▸ hg) hc]
      exact h
    · by_cases hs : p.gravityScale = zoneNewScale z p
      · rw [activate_unchanged z p hg' hc hs]
        exact h
      · rw [activate_changed z p hg' hc hs]

theorem activate_preserves_oneShot (z : Zone) (p : Player) :
    (activateGravityZone z p).1.oneShot = z.oneShot := by
  by_cases hg : (z.oneShot && z.hasActivated) = true
  · rw [Bool.and_eq_true] at hg
    rw [activate_oneShot_guard z p hg.1 hg.2]
  · have hg' : ¬(z.oneShot = true ∧ z.hasActivated = true) := by
      rw [← Bool.and_eq_true]
      exact hg
    by_cases hc : z.cooldownTimer > 0
    · rw [activate_cooldown_guard z p (Bool.not_eq_true _ ▸ hg) hc]
    · by_cases hs : p.gravityScale = zoneNewScale z p
      · rw [activate_unchanged z p hg' hc hs]
      · rw [activate_changed z p hg' hc hs]

theorem zoneCooldownTick_preserves_hasActivated (dt : ℚ) (z : Zone)
    (h : z.hasActivated = true) : (zoneCooldownTick dt z).hasActivated = true := by
  unfold zoneCooldownTick
  split <;> exact h

theorem zoneCooldownTick_preserves_oneShot (dt : ℚ) (z : Zone) :
    (zoneCooldownTick dt z).oneShot = z.oneShot := by
  unfold zoneCooldownTick
  split <;> rfl

theorem zoneEnterExitStep_preserves_hasActivated (z : Zone) (p : Player)
    (isInZone wasInZone : Bool) (h : z.hasActivated = true) :
    (zoneEnterExitStep z p isInZone wasInZone).1.hasActivated = true := by
  unfold zoneEnterExitStep
  dsimp only
  split
  · split
    · exact activate_preserves_hasActivated _ _ h
    · exact h
  · split
    · split <;> exact h
    · exact h

theorem zoneEnterExitStep_preserves_oneShot (z : Zone) (p : Player)
    (isInZone wasInZone : Bool) :
    (zoneEnterExitStep z p isInZone wasInZone).1.oneShot = z.oneShot := by
  unfold zoneEnterExitStep
  dsimp only
  split
  · split
    · exact activate_preserves_oneShot _ _
    · rfl
  · split
    · split <;> rfl
    · rfl

theorem zoneContactStep_preserves_hasActivated (isInZone : Bool) (zp : Zone × Player)
    (h : zp.1.hasActivated = true) :
    (zoneContactStep isInZone zp).1.hasActivated = true := by
  unfold zoneContactStep
  split
  · exact activate_preserves_hasActivated _ _ h
  · exact h

theorem zoneContactStep_preserves_oneShot (isInZone : Bool) (zp : Zone × Player) :
    (zoneContactStep isInZone zp).1.oneShot = zp.1.oneShot := by
  unfold zoneContactStep
  split
  · exact activate_preserves_oneShot _ _
  · rfl

theorem checkGravityZone_preserves_hasActivated (dt : ℚ) (z : Zone) (p : Player)
    (h : z.hasActivated = true) :
    (checkGravityZone dt z p).1.hasActivated = true := by
  unfold checkGravityZone
  exact zoneContactStep_preserves_hasActivated _ _
    (zoneEnterExitStep_preserves_hasActivated _ _ _ _
      (zoneCooldownTick_preserves_hasActivated dt z h))

theorem checkGravityZone_preserves_oneShot (dt : ℚ) (z : Zone) (p : Player) :
    (checkGravityZone dt z p).1.oneShot = z.oneShot := by
  unfold checkGravityZone
  rw [zoneContactStep_preserves_oneShot, zoneEnterExitStep_preserves_oneShot,
    zoneCooldownTick_preserves_oneShot]

/-! ## C3: gravity zone activation effects -/

/-- C3: when the one-shot and cooldown guards pass, `activateGravityZone`
inverts `gravityScale` for `flip` and `toggle` zones and forces it to `-1`
for `momentary` zones; and the zone's cooldown is consumed, `hasActivated`
set, the actor's `gravityFlipTimer` started (when the zone carries a
non-null, non-zero duration) and the actor's `vy` halved, if and only if
the gravity scale actually changed in that activation. -/
theorem c3_activate_effects (z : Zone) (p : Player)
    (h1 : ¬(z.oneShot = true ∧ z.hasActivated = true))
    (h2 : ¬ z.cooldownTimer > 0) :
    (activateGravityZone z p).2.gravityScale =
      (match z.type with
       | ZoneType.flip => -p.gravityScale
       | ZoneType.toggle => -p.gravityScale
       | ZoneType.momentary => -1) ∧
    ((activateGravityZone z p).2.gravityScale ≠ p.gravityScale →
      activateGravityZone z p =
        ({ z with cooldownTimer := if z.cooldown = 0 then 1 else z.cooldown,
                  hasActivated := true },
         { p with gravityScale := zoneNewScale z p,
                  gravityFlipTimer :=
                    match z.duration with
                    | some d => if d = 0 then p.gravityFlipTimer else d
                    | none => p.gravityFlipTimer,
                  hasBeenFlipped := true, gravityIndicatorAlpha := 1,
                  vy := p.vy * (1/2) })) ∧
    ((activateGravityZone z p).2.gravityScale = p.gravityScale →
      activateGravityZone z p = (z, p)) := by
  have hsc := activate_scale z p h1 h2
  refine ⟨?_, ?_, ?_⟩
  · rw [hsc]
    unfold zoneNewScale
    cases z.type <;> ring_nf
  · intro hne
    rw [hsc] at hne
    exact activate_changed z p h1 h2 hne.symm
  · intro hEq
    rw [hsc] at hEq
    exact activate_unchanged z p h1 h2 hEq.symm

/-- Witness for C3: a concrete flip activation yields the switch-computed
scale. -/
theorem c3_witness :
    (activateGravityZone c3Zone basePlayer).2.gravityScale =
      (match c3Zone.type with
       | ZoneType.flip => -basePlayer.gravityScale
       | ZoneType.toggle => -basePlayer.gravityScale
       | ZoneType.momentary => -1) :=
  (c3_activate_effects c3Zone basePlayer (by simp [c3Zone]) (by norm_num [c3Zone])).1

/-! ## C5: one-shot zones never reactivate -/

/-- C5: for a `oneShot` zone whose `hasActivated` flag is set, every call of
`activateGravityZone` returns the zone and the actor completely unchanged,
and the per-frame zone update preserves both `hasActivated` and `oneShot`,
so the refusal persists for the rest of the level instance. -/
theorem c5_oneshot_no_reactivation (z : Zone) (p q : Player) (dt : ℚ)
    (h1 : z.oneShot = true) (h2 : z.hasActivated = true) :
    activateGravityZone z p = (z, p) ∧
    (checkGravityZone dt z q).1.hasActivated = true ∧
    (checkGravityZone dt z q).1.oneShot = true :=
  ⟨activate_oneShot_guard z p h1 h2,
   checkGravityZone_preserves_hasActivated dt z q h2,
   (checkGravityZone_preserves_oneShot dt z q).trans h1⟩

/-- Witness for C5: the concrete exhausted one-shot zone is left untouched. -/
theorem c5_witness : activateGravityZone c5Zone basePlayer = (c5Zone, basePlayer) :=
  (c5_oneshot_no_reactivation c5Zone basePlayer basePlayer 1 rfl rfl).1

/-! ## C10: zero cooldown falls back to 1.0 s -/

/-- C10: on a successful activation (guards passed and the gravity scale
changed), the zone's `cooldownTimer` is set by the `zone.cooldown || 1.0`
fallback: a configured cooldown of exactly `0` yields a 1.0 s timer rather
than cooldown-free re-triggering, while a strictly positive configured
cooldown is honored as given. -/
theorem c10_cooldown_fallback (z : Zone) (p : Player)
    (h1 : ¬(z.oneShot = true ∧ z.hasActivated = true))
    (h2 : ¬ z.cooldownTimer > 0)
    (h3 : (activateGravityZone z p).2.gravityScale ≠ p.gravityScale) :
    (activateGravityZone z p).1.cooldownTimer =
      (if z.cooldown = 0 then 1 else z.cooldown) ∧
    (z.cooldown = 0 → (activateGravityZone z p).1.cooldownTimer = 1) ∧
    (0 < z.cooldown → (activateGravityZone z p).1.cooldownTimer = z.cooldown) := by
  rw [activate_scale z p h1 h2] at h3
  have hout := activate_changed z p h1 h2 (fun hEq => h3 hEq.symm)
  rw [hout]
  refine ⟨rfl, fun h0 => by simp [h0], fun hpos => by
    simp [show z.cooldown ≠ 0 from ne_of_gt hpos]⟩

/-- Witness for C10: activating the zero-cooldown zone sets a 1.0 s timer. -/
theorem c10_witness : (activateGravityZone c10Zone basePlayer).1.cooldownTimer = 1 :=
  (c10_cooldown_fallback c10Zone basePlayer (by simp [c10Zone]) (by norm_num [c10Zone])
    (by norm_num [activateGravityZone, zoneNewScale, c10Zone, basePlayer])).2.1 rfl

/-! ## C9: zero-velocity collision resolution -/

theorem resolveHorizOne_vx_zero (p : Player) (r : Rect) (h : p.vx = 0) :
    resolveHorizOne p r = p := by
  unfold resolveHorizOne
  rw [h]
  simp

theorem resolveVertOne_vy_zero (p : Player) (r : Rect) (h : p.vy = 0) :
    resolveVertOne p r = p := by
  unfold resolveVertOne
  rw [h]
  simp

/-- C9 (counterexample): the vertical resolution phase does not leave
`onGround` unchanged for a zero-velocity overlapping actor: the phase begins
with an unconditional `onGround = false` reset, and the `vy = 0` actor never
reaches a landing branch to set it back, so a grounded embedded actor comes
out of the phase with `onGround = false`. -/
theorem c9_counterexample :
    c9Player.vy = 0 ∧ c9Player.onGround = true ∧
    checkCollision (playerRect c9Player) c9Platform = true ∧
    (verticalResolve [c9Platform] [] c9Player).onGround = false := by
  refine ⟨rfl, rfl, ?_, ?_⟩
  · norm_num [checkCollision, playerRect, c9Player, c9Platform, basePlayer]
  · norm_num [verticalResolve, resolveVertOne, checkCollision, playerRect,
      c9Player, c9Platform, basePlayer]

/-- C9 (amended): collision resolution never displaces a zero-velocity
actor: with `vx = 0` the whole horizontal phase is the identity (even when
overlapping a solid or invisible platform), and with `vy = 0` the vertical
phase leaves `y` and `vy` unchanged and only performs its unconditional
`onGround := false` reset, which no branch undoes. -/
theorem c9_zero_velocity_no_displacement (p : Player) (plats invs : List Rect)
    (hvx : p.vx = 0) (hvy : p.vy = 0) :
    horizontalResolve plats invs p = p ∧
    verticalResolve plats invs p = { p with onGround := false } := by
  constructor
  · unfold horizontalResolve
    rw [foldl_fixed _ p (fun r => resolveHorizOne_vx_zero p r hvx) plats,
      foldl_fixed _ p (fun r => resolveHorizOne_vx_zero p r hvx) invs]
  · unfold verticalResolve
    dsimp only
    have hq : ({ p with onGround := false } : Player).vy = 0 := hvy
    rw [foldl_fixed _ _ (fun r => resolveVertOne_vy_zero _ r hq) plats,
      foldl_fixed _ _ (fun r => resolveVertOne_vy_zero _ r hq) invs]

/-- Witness for C9 (amended): the embedded zero-velocity actor is not pushed
out; only the `onGround` reset applies. -/
theorem c9_witness :
    verticalResolve [c9Platform] [] c9Player = { c9Player with onGround := false } :=
  (c9_zero_velocity_no_displacement c9Player [c9Platform] [] rfl rfl).2

/-! ## C6: spike trigger override fallbacks -/

/-- C6: a spike whose discovery index is beyond the `spikeTriggers` array
falls back to the default trigger offset of −0.5 tiles, placing the trigger
line at `x + 0.5·TILE_SIZE`; an index beyond `spikeTriggerLengths` (or a
null entry there) falls back to a full-canvas-height window
`(triggerY, triggerHeight) = (0, canvasHeight)`.  The parsed spike record
carries exactly these values. -/
theorem c6_spike_trigger_defaults (customTriggers : List ℚ)
    (customTriggerLengths : List (Option ℚ)) (i : ℕ) (x y md canvasHeight : ℚ)
    (h1 : customTriggers.get? i = none)
    (h2 : customTriggerLengths.get? i = none ∨ customTriggerLengths.get? i = some none) :
    parseTriggerOffset customTriggers i = -(1/2) ∧
    parseTriggerBounds (parseTriggerLength customTriggerLengths i) y canvasHeight =
      (0, canvasHeight) ∧
    (mkSpike x y md (parseTriggerOffset customTriggers i)
      (parseTriggerBounds (parseTriggerLength customTriggerLengths i) y canvasHeight)).triggerX =
      x + (1/2) * TILE_SIZE ∧
    (mkSpike x y md (parseTriggerOffset customTriggers i)
      (parseTriggerBounds (parseTriggerLength customTriggerLengths i) y canvasHeight)).triggerY =
      0 ∧
    (mkSpike x y md (parseTriggerOffset customTriggers i)
      (parseTriggerBounds (parseTriggerLength customTriggerLengths i) y canvasHeight)).triggerHeight =
      canvasHeight := by
  have ho : parseTriggerOffset customTriggers i = -(1/2) := by
    unfold parseTriggerOffset
    rw [h1]
    rfl
  have hl : parseTriggerLength customTriggerLengths i = none := by
    unfold parseTriggerLength
    rcases h2 with h2 | h2 <;> rw [h2]
  have hb : parseTriggerBounds (parseTriggerLength customTriggerLengths i) y canvasHeight =
      (0, canvasHeight) := by
    rw [hl]
    rfl
  refine ⟨ho, hb, ?_, ?_, ?_⟩
  · rw [ho]
    show x - (-(1/2)) * TILE_SIZE = x + (1/2) * TILE_SIZE
    ring
  · rw [hb]
    rfl
  · rw [hb]
    rfl

/-- Witness for C6: with empty override arrays, spike 0 gets the default
line at `x + 30` and the full-height window. -/
theorem c6_witness :
    parseTriggerOffset [] 0 = -(1/2) ∧
    parseTriggerBounds (parseTriggerLength [] 0) 120 600 = (0, 600) :=
  ⟨(c6_spike_trigger_defaults [] [] 0 60 120 60 600 rfl (Or.inl rfl)).1,
   (c6_spike_trigger_defaults [] [] 0 60 120 60 600 rfl (Or.inl rfl)).2.1⟩

/-! ## C7: parsing is deterministic and idempotent -/

/-- C7: `parseLevel` clears and rebuilds every geometry/hazard list from the
static level definition alone, so the state transformer is idempotent —
running it twice yields bit-identical platforms, fakeBlocks,
invisiblePlatforms, spikes, door, spawnPoint and gravityZones lists — and
the level/chapter definitions (including the override arrays) are never
mutated. -/
theorem c7_parse_idempotent (s : SimGeometry) :
    runParseLevel (runParseLevel s) = runParseLevel s ∧
    (runParseLevel s).levelDef = s.levelDef ∧
    (runParseLevel s).chapterDef = s.chapterDef ∧
    (runParseLevel s).canvasHeight = s.canvasHeight :=
  ⟨rfl, rfl, rfl, rfl⟩

/-! ## C8: the frame delta time is not capped -/

/-- C8 (code defect): the claim — matching both the spec and the capped
game loops of the sibling source copies, which clamp the frame delta to at
most 0.1 s and substitute a fixed ~16.67 ms fallback after a background
gap — is violated by this file's `gameLoop`: it forwards the raw wall-clock
delta to `update`.  A 5-second gap between animation frames yields
`dt = 5 s`, far above the documented 0.1 s bound. -/
theorem c8_delta_time_uncapped :
    gameLoopDeltaTime 5000 0 = 5 ∧ ¬ gameLoopDeltaTime 5000 0 ≤ 1/10 := by
  norm_num [gameLoopDeltaTime]

/-! ## C4: resting on a platform -/

theorem gravityTimersStep_noFlip (dt : ℚ) (p : Player) (hflip : ¬ p.gravityFlipTimer > 0) :
    gravityTimersStep dt p =
      { p with
        gravityFlipCooldown :=
          if p.gravityFlipCooldown > 0 then p.gravityFlipCooldown - dt
          else p.gravityFlipCooldown,
        gravityIndicatorAlpha :=
          if p.gravityIndicatorAlpha > 0 then p.gravityIndicatorAlpha - dt * 2
          else p.gravityIndicatorAlpha } := by
  unfold gravityTimersStep
  dsimp only
  rw [if_neg hflip]
  by_cases h1 : p.gravityFlipCooldown > 0 <;> by_cases h2 : p.gravityIndicatorAlpha > 0 <;>
    simp [h1, h2]

theorem inputStep_noKeys (k : Keys) (p : Player)
    (hl : k.left = false) (hr : k.right = false) (hs : k.space = false) :
    inputStep k p = { p with vx := 0, hasJumped := false } := by
  unfold inputStep
  rw [hl, hr, hs]
  simp

theorem integrateHorizontal_rest (dt cw : ℚ) (p : Player)
    (hvx : p.vx = 0) (hvy : p.vy = 0) (hsc : p.gravityScale = 1)
    (hx0 : ¬ p.x < 0) (hxw : ¬ p.x + p.width > cw) :
    integrateHorizontal dt cw p = { p with vy := GRAVITY * dt } := by
  unfold integrateHorizontal
  dsimp only
  rw [hvx, hvy, hsc]
  simp only [one_mul, mul_one, zero_add, zero_mul, add_zero]
  rw [if_neg hx0, if_neg hxw]

theorem horizontalResolve_vx_zero (plats invs : List Rect) (p : Player)
    (h : p.vx = 0) : horizontalResolve plats invs p = p := by
  unfold horizontalResolve
  rw [foldl_fixed _ p (fun r => resolveHorizOne_vx_zero p r h) plats,
    foldl_fixed _ p (fun r => resolveHorizOne_vx_zero p r h) invs]

theorem verticalResolve_landing (plat : Rect) (q : Player)
    (hg : q.gravityScale > 0) (hvy : q.vy > 0)
    (h1 : q.x < plat.x + plat.width) (h2 : plat.x < q.x + q.width)
    (h3 : q.y < plat.y + plat.height) (h4 : plat.y < q.y + q.height) :
    verticalResolve [plat] [] q =
      { q with y := plat.y - q.height, vy := 0, onGround := true } := by
  unfold verticalResolve
  simp only [List.foldl_cons, List.foldl_nil]
  have hcol : checkCollision (playerRect { q with onGround := false }) plat = true := by
    simp only [checkCollision, playerRect, Bool.and_eq_true, decide_eq_true_eq]
    exact ⟨⟨⟨h1, h2⟩, h3⟩, h4⟩
  unfold resolveVertOne
  rw [hcol]
  simp only [if_true, ite_true]
  rw [if_pos hg, if_pos hvy]

/-- C4 (amended): an actor resting exactly on top of a solid platform
(`y + height = plat.y`, `vy = 0`, `onGround = true`), under normal gravity
and zero input, stays put for one frame — `y` and `x` unchanged, `vy`
collapsed back to `0`, `onGround = true` — for every `dt > 0` small enough
that the gravity-integrated fall `GRAVITY·dt²` does not overshoot the
platform (`GRAVITY·dt² < height + plat.height`); larger dt tunnel straight
through (see the counterexample). -/
theorem c4_rest_on_platform (dt : ℚ) (plat : Rect) (k : Keys) (s : GameState)
    (hplats : s.platforms = [plat]) (hinv : s.invisiblePlatforms = [])
    (hzones : s.gravityZones = [])
    (hkl : k.left = false) (hkr : k.right = false) (hks : k.space = false)
    (hrest : s.player.y + s.player.height = plat.y) (hvy : s.player.vy = 0)
    (hon : s.player.onGround = true) (hscale : s.player.gravityScale = 1)
    (hflip : ¬ s.player.gravityFlipTimer > 0)
    (hx0 : ¬ s.player.x < 0) (hxw : ¬ s.player.x + s.player.width > s.canvasWidth)
    (hox1 : s.player.x < plat.x + plat.width) (hox2 : plat.x < s.player.x + s.player.width)
    (hdt : 0 < dt) (htunnel : GRAVITY * dt * dt < s.player.height + plat.height) :
    (update dt k s).player.y = s.player.y ∧
    (update dt k s).player.vy = 0 ∧
    (update dt k s).player.onGround = true ∧
    (update dt k s).player.x = s.player.x := by
  obtain ⟨p, platforms, invs, spikes, zones, door, cw, ch, dead, lc⟩ := s
  dsimp only at hplats hinv hzones hrest hvy hon hscale hflip hx0 hxw hox1 hox2 htunnel ⊢
  subst hplats hinv hzones
  have hGdt : (0 : ℚ) < GRAVITY * dt * dt := by
    have hg : (0 : ℚ) < GRAVITY := by norm_num [GRAVITY]
    exact mul_pos (mul_pos hg hdt) hdt
  have e3 : integrateHorizontal dt cw (inputStep k (gravityTimersStep dt p)) =
      { p with
        gravityFlipCooldown :=
          if p.gravityFlipCooldown > 0 then p.gravityFlipCooldown - dt
          else p.gravityFlipCooldown,
        gravityIndicatorAlpha :=
          if p.gravityIndicatorAlpha > 0 then p.gravityIndicatorAlpha - dt * 2
          else p.gravityIndicatorAlpha,
        vx := 0, hasJumped := false, vy := GRAVITY * dt } := by
    rw [gravityTimersStep_noFlip dt p hflip, inputStep_noKeys k _ hkl hkr hks]
    exact integrateHorizontal_rest dt cw _ rfl hvy hscale hx0 hxw
  have e4 : horizontalResolve [plat] []
      (integrateHorizontal dt cw (inputStep k (gravityTimersStep dt p))) =
      { p with
        gravityFlipCooldown :=
          if p.gravityFlipCooldown > 0 then p.gravityFlipCooldown - dt
          else p.gravityFlipCooldown,
        gravityIndicatorAlpha :=
          if p.gravityIndicatorAlpha > 0 then p.gravityIndicatorAlpha - dt * 2
          else p.gravityIndicatorAlpha,
        vx := 0, hasJumped := false, vy := GRAVITY * dt } := by
    rw [e3]
    exact horizontalResolve_vx_zero [plat] [] _ rfl
  have e6 : verticalResolve [plat] []
      { p with
        gravityFlipCooldown :=
          if p.gravityFlipCooldown > 0 then p.gravityFlipCooldown - dt
          else p.gravityFlipCooldown,
        gravityIndicatorAlpha :=
          if p.gravityIndicatorAlpha > 0 then p.gravityIndicatorAlpha - dt * 2
          else p.gravityIndicatorAlpha,
        vx := 0, hasJumped := false, vy := GRAVITY * dt,
        y := p.y + GRAVITY * dt * dt } =
      { p with
        gravityFlipCooldown :=
          if p.gravityFlipCooldown > 0 then p.gravityFlipCooldown - dt
          else p.gravityFlipCooldown,
        gravityIndicatorAlpha :=
          if p.gravityIndicatorAlpha > 0 then p.gravityIndicatorAlpha - dt * 2
          else p.gravityIndicatorAlpha,
        vx := 0, hasJumped := false, vy := 0,
        y := plat.y - p.height, onGround := true } :=
    verticalResolve_landing plat _
      (by show (0 : ℚ) < p.gravityScale; rw [hscale]; norm_num)
      (show (0 : ℚ) < GRAVITY * dt from mul_pos (by norm_num [GRAVITY]) hdt)
      hox1 hox2
      (by show p.y + GRAVITY * dt * dt < plat.y + plat.height; linarith)
      (by show plat.y < p.y + GRAVITY * dt * dt + p.height; linarith)
  have h0 : (update dt k (GameState.mk p [plat] [] spikes [] door cw ch dead lc)).player =
      verticalResolve [plat] []
        { horizontalResolve [plat] []
            (integrateHorizontal dt cw (inputStep k (gravityTimersStep dt p))) with
          y := (horizontalResolve [plat] []
              (integrateHorizontal dt cw (inputStep k (gravityTimersStep dt p)))).y +
            (horizontalResolve [plat] []
              (integrateHorizontal dt cw (inputStep k (gravityTimersStep dt p)))).vy * dt } :=
    rfl
  rw [e4] at h0
  have hfin := h0.trans e6
  rw [hfin]
  refine ⟨?_, rfl, rfl, rfl⟩
  show plat.y - p.height = p.y
  linarith

/-- C4 (counterexample): the claim's "any dt > 0" fails.  At dt = 0.2 s the
gravity-integrated fall is GRAVITY·dt² = 126 px, which overshoots the
60 px platform below the resting actor: the overlap test misses, the actor
tunnels through, and the frame ends with onGround = false, y moved, vy far
from 0. -/
theorem c4_counterexample :
    (0 : ℚ) < 1/5 ∧
    (update (1/5) noKeys c4State).player.onGround = false ∧
    (update (1/5) noKeys c4State).player.y ≠ c4State.player.y ∧
    (update (1/5) noKeys c4State).player.vy ≠ 0 := by
  refine ⟨by norm_num, ?_, ?_, ?_⟩ <;>
    norm_num [update, gravityTimersStep, inputStep, integrateHorizontal,
      horizontalResolve, verticalResolve, resolveHorizOne, resolveVertOne,
      checkSpikeTriggers, checkGravityZones, checkCollision, playerRect,
      c4State, c4Player, c4Platform, basePlayer, noKeys, GRAVITY]

/-- Witness for C4 (amended): at dt = 0.01 s the resting actor stays put. -/
theorem c4_witness :
    (update (1/100) noKeys c4State).player.y = c4State.player.y ∧
    (update (1/100) noKeys c4State).player.vy = 0 ∧
    (update (1/100) noKeys c4State).player.onGround = true :=
  have h := c4_rest_on_platform (1/100) c4Platform noKeys c4State
    rfl rfl rfl rfl rfl rfl
    (by norm_num [c4State, c4Player, c4Platform, basePlayer])
    rfl rfl rfl
    (by norm_num [c4State, c4Player, basePlayer])
    (by norm_num [c4State, c4Player, basePlayer])
    (by norm_num [c4State, c4Player, basePlayer])
    (by norm_num [c4State, c4Player, c4Platform, basePlayer])
    (by norm_num [c4State, c4Player, c4Platform, basePlayer])
    (by norm_num)
    (by norm_num [c4State, c4Player, c4Platform, basePlayer, GRAVITY])
  ⟨h.1, h.2.1, h.2.2.1⟩

end Disbelieve
